import Mathlib

/-!
Verification development for the ldc-store order lifecycle and
card-inventory engine.

The code is shallowly embedded: the durable state (products, orders,
cards) is a record of lists, and each server action is a pure function on
that state.  Functions whose SQL or TypeScript source is present in the
repository are translated directly from it; the payment-notify route, the
settlement processor and the gateway query client are absent from the
source tree and are modelled from the specification (their doc comments
say so), pinned by the integration tests that ship with the repository.
-/

namespace LdcStore

/-- Order status column, a closed set in the schema. -/
inductive OrderStatus where
  | pending
  | paid
  | completed
  | expired
  | refund_pending
  | refunded
  | refund_rejected
deriving DecidableEq, Repr

/-- Card status column. -/
inductive CardStatus where
  | available
  | locked
  | sold
deriving DecidableEq, Repr

/-- A row of the orders table (the columns the core operations touch). -/
structure Order where
  id : String
  orderNo : String
  productId : Option String
  status : OrderStatus
  totalAmount : String
  tradeNo : Option String
  expiredAt : Nat
  paidAt : Option Nat
  updatedAt : Nat
deriving DecidableEq, Repr

/-- A row of the cards table. -/
structure Card where
  id : String
  productId : String
  content : String
  status : CardStatus
  orderId : Option String
  lockedAt : Option Nat
deriving DecidableEq, Repr

/-- A row of the products table (the columns the core operations touch). -/
structure Product where
  id : String
  slug : String
  isActive : Bool
  salesCount : Nat
deriving DecidableEq, Repr

/-- The durable state: the three tables the core reads and writes. -/
structure DB where
  products : List Product
  orders : List Order
  cards : List Card
deriving DecidableEq, Repr

/-- Leading and trailing whitespace removal, written over the character
list so that it evaluates by reduction (the semantics of String.trim). -/
def jsTrim (s : String) : String :=
  String.mk (((s.data.dropWhile Char.isWhitespace).reverse.dropWhile
    Char.isWhitespace).reverse)

/-! ## Expiry Reaper (lazyReleaseExpiredOrders, src/unnamed/part_004)

The CTE in lazyReleaseExpiredOrders first flips every pending order whose
expired_at is in the past to expired, RETURNING their ids, and then
releases every locked card whose order_id is in that returned set. -/

/-- The ids RETURNING-ed by the UPDATE orders arm of the CTE: all pending
orders with expired_at earlier than now. -/
def expiredOrderIds (now : Nat) (db : DB) : List String :=
  ((db.orders.filter fun o => decide (o.status = .pending ∧ o.expiredAt < now)).map
    fun o => o.id)

/-- The UPDATE orders arm applied to one row: pending and past deadline
becomes expired (updated_at is set to NOW()). -/
def expireOrder (now : Nat) (o : Order) : Order :=
  if o.status = .pending ∧ o.expiredAt < now then
    { o with status := .expired, updatedAt := now }
  else o

/-- The UPDATE cards arm applied to one row: a locked card whose order_id
is IN the newly expired set goes back to available with order_id and
locked_at cleared. -/
def releaseCard (now : Nat) (db : DB) (c : Card) : Card :=
  match c.orderId with
  | some oid =>
      if c.status = .locked ∧ oid ∈ expiredOrderIds now db then
        { c with status := .available, orderId := none, lockedAt := none }
      else c
  | none => c

/-- The whole CTE of lazyReleaseExpiredOrders as one transaction on the
state. -/
def lazySweepTransaction (now : Nat) (db : DB) : DB :=
  { db with
    orders := db.orders.map (expireOrder now)
    cards := db.cards.map (releaseCard now db) }

theorem expireOrder_id (now : Nat) (o : Order) : (expireOrder now o).id = o.id := by
  unfold expireOrder; split <;> rfl

theorem mem_expiredOrderIds_of (now : Nat) (db : DB) (o : Order)
    (hmem : o ∈ db.orders) (hst : o.status = .pending) (hexp : o.expiredAt < now) :
    o.id ∈ expiredOrderIds now db := by
  unfold expiredOrderIds
  exact List.mem_map_of_mem _ (List.mem_filter.mpr ⟨hmem, by simp [hst, hexp]⟩)

theorem releaseCard_of_orderId_none (now : Nat) (db : DB) (c : Card)
    (h : c.orderId = none) : releaseCard now db c = c := by
  unfold releaseCard; rw [h]

theorem releaseCard_of_cond (now : Nat) (db : DB) (c : Card) (oid : String)
    (h : c.orderId = some oid) (hst : c.status = .locked)
    (hmem : oid ∈ expiredOrderIds now db) :
    releaseCard now db c = { c with status := .available, orderId := none, lockedAt := none } := by
  simp [releaseCard, h, hst, hmem]

theorem releaseCard_of_not_cond (now : Nat) (db : DB) (c : Card) (oid : String)
    (h : c.orderId = some oid)
    (hnot : ¬ (c.status = .locked ∧ oid ∈ expiredOrderIds now db)) :
    releaseCard now db c = c := by
  simp [releaseCard, h, hnot]

/-- C1: the expiry sweep, in one transaction, flips every pending order
past its deadline to expired, releases exactly the locked cards whose
owning order is in the newly expired set back to available with the
owning-order reference cleared, and afterwards no card is left locked
while referencing an expired order (given that no such dangling card
existed before the sweep). -/
theorem lazySweep_expires_and_releases (now : Nat) (db : DB)
    (hinv : ∀ c ∈ db.cards, c.status = .locked →
      ∀ o ∈ db.orders, c.orderId = some o.id → o.status ≠ .expired) :
    (∀ o ∈ db.orders, o.status = .pending → o.expiredAt < now →
        ({ o with status := .expired, updatedAt := now } : Order) ∈
          (lazySweepTransaction now db).orders)
    ∧ (∀ c ∈ db.cards, ∀ oid : String, c.status = .locked → c.orderId = some oid →
        oid ∈ expiredOrderIds now db →
        ({ c with status := .available, orderId := none, lockedAt := none } : Card) ∈
          (lazySweepTransaction now db).cards)
    ∧ (∀ c ∈ db.cards,
        ¬ (c.status = .locked ∧ ∃ oid, c.orderId = some oid ∧ oid ∈ expiredOrderIds now db) →
        c ∈ (lazySweepTransaction now db).cards)
    ∧ (∀ c ∈ (lazySweepTransaction now db).cards, c.status = .locked →
        ∀ o ∈ (lazySweepTransaction now db).orders, c.orderId = some o.id →
        o.status ≠ .expired) := by
  refine ⟨?_, ?_, ?_, ?_⟩
  · intro o ho hst hexp
    have he : expireOrder now o = { o with status := .expired, updatedAt := now } := by
      unfold expireOrder; rw [if_pos ⟨hst, hexp⟩]
    have hmem := List.mem_map_of_mem (expireOrder now) ho
    rw [he] at hmem
    exact hmem
  · intro c hc oid hlocked hoid hexpset
    have hrel := releaseCard_of_cond now db c oid hoid hlocked hexpset
    have hmem := List.mem_map_of_mem (releaseCard now db) hc
    rw [hrel] at hmem
    exact hmem
  · intro c hc hnot
    have hid : releaseCard now db c = c := by
      cases hoid : c.orderId with
      | none => exact releaseCard_of_orderId_none now db c hoid
      | some oid =>
          refine releaseCard_of_not_cond now db c oid hoid ?_
          intro hcond
          exact hnot ⟨hcond.1, oid, hoid, hcond.2⟩
    have hmem := List.mem_map_of_mem (releaseCard now db) hc
    rw [hid] at hmem
    exact hmem
  · intro c2 hc2 hlocked o2 ho2 heq hexpst
    have hc2' : c2 ∈ db.cards.map (releaseCard now db) := hc2
    obtain ⟨c, hc, rfl⟩ := List.mem_map.mp hc2'
    have ho2' : o2 ∈ db.orders.map (expireOrder now) := ho2
    obtain ⟨o, ho, rfl⟩ := List.mem_map.mp ho2'
    cases hoid : c.orderId with
    | none =>
        rw [releaseCard_of_orderId_none now db c hoid] at heq
        rw [hoid] at heq
        exact Option.noConfusion heq
    | some oid =>
        by_cases hcond : (c.status = .locked ∧ oid ∈ expiredOrderIds now db)
        · rw [releaseCard_of_cond now db c oid hoid hcond.1 hcond.2] at hlocked
          exact CardStatus.noConfusion hlocked
        · rw [releaseCard_of_not_cond now db c oid hoid hcond] at hlocked heq
          rw [expireOrder_id] at heq
          by_cases hoexp : (o.status = .pending ∧ o.expiredAt < now)
          · rw [hoid] at heq
            have hoeq : oid = o.id := Option.some.inj heq
            subst hoeq
            exact hcond ⟨hlocked, mem_expiredOrderIds_of now db o ho hoexp.1 hoexp.2⟩
          · have hoe : expireOrder now o = o := by unfold expireOrder; rw [if_neg hoexp]
            rw [hoe] at hexpst
            exact hinv c hc hlocked o ho heq hexpst

/-- C6: the sweep touches every card only through releaseCard, which
changes nothing but status, order_id and locked_at; a released card keeps
its id, secret content and product reference and ends up available with
the owning order and lock timestamp cleared. -/
theorem releaseCard_only_clears_reservation (now : Nat) (db : DB) :
    (lazySweepTransaction now db).cards = db.cards.map (releaseCard now db)
    ∧ (∀ c : Card,
        (releaseCard now db c).id = c.id
        ∧ (releaseCard now db c).content = c.content
        ∧ (releaseCard now db c).productId = c.productId)
    ∧ (∀ c : Card, ∀ oid : String, c.orderId = some oid →
        oid ∈ expiredOrderIds now db → c.status = .locked →
        releaseCard now db c =
          { c with status := .available, orderId := none, lockedAt := none }) := by
  refine ⟨rfl, ?_, ?_⟩
  · intro c
    cases hoid : c.orderId with
    | none =>
        rw [releaseCard_of_orderId_none now db c hoid]
        exact ⟨rfl, rfl, rfl⟩
    | some oid =>
        by_cases hcond : (c.status = .locked ∧ oid ∈ expiredOrderIds now db)
        · rw [releaseCard_of_cond now db c oid hoid hcond.1 hcond.2]
          exact ⟨rfl, rfl, rfl⟩
        · rw [releaseCard_of_not_cond now db c oid hoid hcond]
          exact ⟨rfl, rfl, rfl⟩
  · intro c oid hoid hmem hlocked
    exact releaseCard_of_cond now db c oid hoid hlocked hmem

/-! Concrete state used by the witnesses. -/

def wOrder1 : Order :=
  { id := "o1", orderNo := "ORDER_1", productId := some "p1", status := .pending
    totalAmount := "10.00", tradeNo := none, expiredAt := 100, paidAt := none
    updatedAt := 0 }

def wCard1 : Card :=
  { id := "c1", productId := "p1", content := "SECRET-1", status := .locked
    orderId := some "o1", lockedAt := some 50 }

def wProduct1 : Product :=
  { id := "p1", slug := "prod-1", isActive := true, salesCount := 0 }

def wDB : DB := { products := [wProduct1], orders := [wOrder1], cards := [wCard1] }

theorem lazySweep_expires_and_releases_witness :
    (wOrder1.status = .pending ∧ wOrder1.expiredAt < 200)
    ∧ ({ wOrder1 with status := .expired, updatedAt := 200 } : Order) ∈
        (lazySweepTransaction 200 wDB).orders
    ∧ ({ wCard1 with status := .available, orderId := none, lockedAt := none } : Card) ∈
        (lazySweepTransaction 200 wDB).cards := by
  have h := lazySweep_expires_and_releases 200 wDB (by decide)
  exact ⟨by decide,
    h.1 wOrder1 (by decide) (by decide) (by decide),
    h.2.1 wCard1 (by decide) "o1" (by decide) (by decide) (by decide)⟩

theorem releaseCard_only_clears_reservation_witness :
    releaseCard 200 wDB wCard1 =
      { wCard1 with status := .available, orderId := none, lockedAt := none } :=
  (releaseCard_only_clears_reservation 200 wDB).2.2 wCard1 "o1" (by decide) (by decide)
    (by decide)

/-! ## Catalog stock (getActiveProducts, getProductBySlug, searchProducts,
src/unnamed/part_004)

Every catalog query derives a product's stock from the cards table: a
grouped count of cards with status available, looked up in a map with
default 0; no stored counter is read. -/

/-- The specification's derived quantity: count of this product's cards
with status available. -/
def availableStockCount (cs : List Card) (pid : String) : Nat :=
  (cs.filter fun c => decide (c.productId = pid ∧ c.status = .available)).length

/-- The grouped stock query: select productId, count(*) from cards where
productId in productIds and status = available group by productId. -/
def stockCountsQuery (cs : List Card) (productIds : List String) : List (String × Nat) :=
  ((cs.filter fun c => decide (c.productId ∈ productIds ∧ c.status = .available)).map
      fun c => c.productId).dedup.map
    fun pid =>
      (pid,
        ((cs.filter fun c => decide (c.productId ∈ productIds ∧ c.status = .available)).filter
            fun c => decide (c.productId = pid)).length)

/-- stockMap.get(product.id) with the JS fallback to 0 (a count of 0 is
also mapped to 0 by the or-default, so the fallback is harmless). -/
def stockLookup (m : List (String × Nat)) (pid : String) : Nat :=
  match m.find? fun s => decide (s.1 = pid) with
  | some s => s.2
  | none => 0

/-- getActiveProducts restricted to the id/stock pairs it returns: active
products, each paired with the grouped-count lookup. -/
def getActiveProductsStock (ps : List Product) (cs : List Card) : List (String × Nat) :=
  (ps.filter fun p => p.isActive).map
    fun p =>
      (p.id,
        stockLookup
          (stockCountsQuery cs ((ps.filter fun p2 => p2.isActive).map fun p2 => p2.id))
          p.id)

/-- getProductBySlug restricted to the id/stock pair it returns: the
single-product count query with the or-default on the count row. -/
def getProductBySlugStock (ps : List Product) (cs : List Card) (slug : String) :
    Option (String × Nat) :=
  match ps.find? fun p => decide (p.slug = slug ∧ p.isActive = true) with
  | none => none
  | some product =>
      some (product.id,
        if ((cs.filter fun c =>
              decide (c.productId = product.id ∧ c.status = .available)).length) = 0
        then 0
        else (cs.filter fun c =>
              decide (c.productId = product.id ∧ c.status = .available)).length)

/-- searchProducts restricted to the id/stock pairs it returns; the ILIKE
match condition is abstracted as a predicate on the product row. -/
def searchProductsStock (ps : List Product) (cs : List Card) (keyword : String)
    (matchCond : Product → Bool) : List (String × Nat) :=
  if (jsTrim keyword).length < 2 then []
  else
    (ps.filter fun p => p.isActive && matchCond p).map
      fun p =>
        (p.id,
          stockLookup
            (stockCountsQuery cs
              ((ps.filter fun p2 => p2.isActive && matchCond p2).map fun p2 => p2.id))
            p.id)

theorem find?_keyed_of_mem (ks : List String) (f : String → Nat) (pid : String)
    (h : pid ∈ ks) :
    (ks.map fun k => (k, f k)).find? (fun s => decide (s.1 = pid)) = some (pid, f pid) := by
  induction ks with
  | nil => cases h
  | cons a t ih =>
      cases h with
      | head => simp [List.find?]
      | tail _ h2 =>
          by_cases ha : a = pid
          · subst ha; simp [List.find?]
          · rw [List.map_cons, List.find?_cons_of_neg _ (by simp [ha])]
            exact ih h2

theorem find?_keyed_of_not_mem (ks : List String) (f : String → Nat) (pid : String)
    (h : pid ∉ ks) :
    (ks.map fun k => (k, f k)).find? (fun s => decide (s.1 = pid)) = none := by
  induction ks with
  | nil => rfl
  | cons a t ih =>
      have ha : ¬ a = pid := fun he => h (by rw [← he]; exact List.mem_cons_self a t)
      have h2 : pid ∉ t := fun hm => h (List.mem_cons_of_mem a hm)
      rw [List.map_cons, List.find?_cons_of_neg _ (by simp [ha])]
      exact ih h2

theorem grouped_filter_eq (cs : List Card) (ids : List String) (pid : String)
    (hpid : pid ∈ ids) :
    ((cs.filter fun c => decide (c.productId ∈ ids ∧ c.status = .available)).filter
        fun c => decide (c.productId = pid))
      = cs.filter fun c => decide (c.productId = pid ∧ c.status = .available) := by
  rw [List.filter_filter]
  refine List.filter_congr ?_
  intro c _
  by_cases h1 : c.productId = pid
  · by_cases h2 : c.status = CardStatus.available <;> simp [h1, h2, hpid]
  · simp [h1]

theorem stockLookup_stockCountsQuery (cs : List Card) (ids : List String) (pid : String)
    (hpid : pid ∈ ids) :
    stockLookup (stockCountsQuery cs ids) pid = availableStockCount cs pid := by
  unfold stockLookup stockCountsQuery availableStockCount
  by_cases hin :
      pid ∈ ((cs.filter fun c => decide (c.productId ∈ ids ∧ c.status = .available)).map
        fun c => c.productId)
  · rw [find?_keyed_of_mem _ _ _ (List.mem_dedup.mpr hin)]
    rw [grouped_filter_eq cs ids pid hpid]
  · rw [find?_keyed_of_not_mem _ _ _ (fun hh => hin (List.mem_dedup.mp hh))]
    have hnil : (cs.filter fun c => decide (c.productId = pid ∧ c.status = .available)) = [] := by
      refine List.filter_eq_nil_iff.mpr ?_
      intro c hc hdec
      rw [decide_eq_true_eq] at hdec
      refine hin ?_
      have hcm : c ∈ cs.filter fun c => decide (c.productId ∈ ids ∧ c.status = .available) :=
        List.mem_filter.mpr ⟨hc, by simp [hdec.1, hdec.2, hpid]⟩
      have hmap : c.productId ∈
          (cs.filter fun c => decide (c.productId ∈ ids ∧ c.status = .available)).map
            (fun c : Card => c.productId) :=
        List.mem_map_of_mem _ hcm
      rw [hdec.1] at hmap
      exact hmap
    rw [hnil]
    rfl

/-- C5: the stock value each catalog query returns is the derived count
of that product's cards with status available; it is computed from the
cards table, not read from a stored counter. -/
theorem catalog_stock_is_derived_count (ps : List Product) (cs : List Card) :
    (∀ e ∈ getActiveProductsStock ps cs, e.2 = availableStockCount cs e.1)
    ∧ (∀ slug pid n, getProductBySlugStock ps cs slug = some (pid, n) →
        n = availableStockCount cs pid)
    ∧ (∀ keyword mcond, ∀ e ∈ searchProductsStock ps cs keyword mcond,
        e.2 = availableStockCount cs e.1) := by
  refine ⟨?_, ?_, ?_⟩
  · intro e he
    unfold getActiveProductsStock at he
    obtain ⟨p, hp, rfl⟩ := List.mem_map.mp he
    exact stockLookup_stockCountsQuery cs _ p.id (List.mem_map_of_mem _ hp)
  · intro slug pid n h
    unfold getProductBySlugStock at h
    cases hf : ps.find? fun p => decide (p.slug = slug ∧ p.isActive = true) with
    | none => rw [hf] at h; exact Option.noConfusion h
    | some product =>
        rw [hf] at h
        have hpair := Option.some.inj h
        rw [Prod.mk.injEq] at hpair
        obtain ⟨hid, hn⟩ := hpair
        subst hid
        unfold availableStockCount
        rw [← hn]
        by_cases hz :
            ((cs.filter fun c =>
              decide (c.productId = product.id ∧ c.status = .available)).length) = 0
        · rw [if_pos hz]
          exact hz.symm
        · rw [if_neg hz]
  · intro keyword mcond e he
    unfold searchProductsStock at he
    by_cases hk : (jsTrim keyword).length < 2
    · rw [if_pos hk] at he; cases he
    · rw [if_neg hk] at he
      obtain ⟨p, hp, rfl⟩ := List.mem_map.mp he
      exact stockLookup_stockCountsQuery cs _ p.id (List.mem_map_of_mem _ hp)

def wCard2 : Card :=
  { id := "c2", productId := "p1", content := "SECRET-2", status := .available
    orderId := none, lockedAt := none }

theorem catalog_stock_is_derived_count_witness :
    (("p1", (1 : Nat)) ∈ getActiveProductsStock [wProduct1] [wCard1, wCard2])
    ∧ ("p1", (1 : Nat)).2 = availableStockCount [wCard1, wCard2] ("p1", (1 : Nat)).1 :=
  ⟨by decide, (catalog_stock_is_derived_count [wProduct1] [wCard1, wCard2]).1 _ (by decide)⟩

/-! ## Throttle and error containment of the sweep
(lazyReleaseExpiredOrders, src/unnamed/part_004)

The function first checks a process-wide lastExpireCheck timestamp and
returns at once when less than the interval has elapsed; otherwise it
stamps the timestamp, runs the transaction inside a try, and on failure
only logs the error.  The database statement is modelled as a function
into Except so that its failure is an explicit value. -/

def EXPIRE_CHECK_INTERVAL : Nat := 60 * 1000

/-- What one call to lazyReleaseExpiredOrders leaves behind: the new
shared timestamp, the database, whether the statement was attempted, and
the logged error if the statement failed. -/
structure SweepOutcome where
  lastExpireCheck : Nat
  db : DB
  ran : Bool
  loggedError : Option String
deriving DecidableEq, Repr

/-- lazyReleaseExpiredOrders: throttle check, timestamp stamp, then the
statement under try/catch.  The function is total: a statement failure
becomes a logged value, never a thrown error. -/
def lazyReleaseExpiredOrders (now lastExpireCheck : Nat)
    (exec : DB → Except String DB) (db : DB) : SweepOutcome :=
  if now - lastExpireCheck < EXPIRE_CHECK_INTERVAL then
    { lastExpireCheck := lastExpireCheck, db := db, ran := false, loggedError := none }
  else
    match exec db with
    | .ok db2 => { lastExpireCheck := now, db := db2, ran := true, loggedError := none }
    | .error e => { lastExpireCheck := now, db := db, ran := true, loggedError := some e }

/-- The statement lazyReleaseExpiredOrders actually runs: the sweep CTE,
which always commits in this pure model. -/
def sweepExec (now : Nat) : DB → Except String DB :=
  fun db => .ok (lazySweepTransaction now db)

/-- The foreground catalog read that triggers the sweep: it always
completes with the product list computed over the state the sweep left
(on sweep failure, the unchanged state). -/
def getActiveProductsRun (now lastExpireCheck : Nat) (exec : DB → Except String DB)
    (ps : List Product) (db : DB) : Except String (List (String × Nat)) :=
  .ok (getActiveProductsStock ps
    (lazyReleaseExpiredOrders now lastExpireCheck exec db).db.cards)

/-- C7: lazyReleaseExpiredOrders never throws: when the underlying
database statement fails with any error, the failure is caught and
logged, the state is left unchanged, and the foreground catalog read that
triggered the sweep still completes with its product list. -/
theorem lazyRelease_swallows_errors (now lastExpireCheck : Nat)
    (exec : DB → Except String DB) (db : DB) (ps : List Product) (e : String)
    (herr : exec db = .error e)
    (hdue : EXPIRE_CHECK_INTERVAL ≤ now - lastExpireCheck) :
    lazyReleaseExpiredOrders now lastExpireCheck exec db =
      { lastExpireCheck := now, db := db, ran := true, loggedError := some e }
    ∧ getActiveProductsRun now lastExpireCheck exec ps db =
        .ok (getActiveProductsStock ps db.cards)
    ∧ (∀ exec2 : DB → Except String DB,
        (getActiveProductsRun now lastExpireCheck exec2 ps db).isOk = true) := by
  have hske : lazyReleaseExpiredOrders now lastExpireCheck exec db =
      { lastExpireCheck := now, db := db, ran := true, loggedError := some e } := by
    unfold lazyReleaseExpiredOrders
    rw [if_neg (Nat.not_lt.mpr hdue), herr]
  refine ⟨hske, ?_, fun exec2 => rfl⟩
  unfold getActiveProductsRun
  rw [hske]

/-- C8: the sweep is throttled by the shared lastExpireCheck timestamp:
after an attempt starts at time t (stamping the timestamp before the
statement runs, whatever its outcome), every call strictly within the
next interval returns immediately with the state untouched and the
statement not attempted. -/
theorem lazyRelease_throttled (t t2 lastExpireCheck : Nat)
    (exec exec2 : DB → Except String DB) (db : DB)
    (hdue : EXPIRE_CHECK_INTERVAL ≤ t - lastExpireCheck)
    (horder : t ≤ t2) (hwithin : t2 < t + EXPIRE_CHECK_INTERVAL) :
    (lazyReleaseExpiredOrders t lastExpireCheck exec db).lastExpireCheck = t
    ∧ (∀ db2 : DB,
        lazyReleaseExpiredOrders t2
            (lazyReleaseExpiredOrders t lastExpireCheck exec db).lastExpireCheck exec2 db2 =
          { lastExpireCheck := t, db := db2, ran := false, loggedError := none }) := by
  have hstamp : (lazyReleaseExpiredOrders t lastExpireCheck exec db).lastExpireCheck = t := by
    unfold lazyReleaseExpiredOrders
    rw [if_neg (Nat.not_lt.mpr hdue)]
    cases exec db <;> rfl
  refine ⟨hstamp, fun db2 => ?_⟩
  rw [hstamp]
  unfold lazyReleaseExpiredOrders
  rw [if_pos (by omega)]

theorem lazyRelease_swallows_errors_witness :
    ((fun _ : DB => (.error "connection reset" : Except String DB)) wDB =
        .error "connection reset")
    ∧ EXPIRE_CHECK_INTERVAL ≤ 70000 - 0
    ∧ lazyReleaseExpiredOrders 70000 0 (fun _ => .error "connection reset") wDB =
        { lastExpireCheck := 70000, db := wDB, ran := true
          loggedError := some "connection reset" } :=
  ⟨rfl, by decide,
    (lazyRelease_swallows_errors 70000 0 (fun _ => .error "connection reset") wDB
      [wProduct1] "connection reset" rfl (by decide)).1⟩

theorem lazyRelease_throttled_witness :
    lazyReleaseExpiredOrders 70040 (lazyReleaseExpiredOrders 70000 0 (sweepExec 70000)
        wDB).lastExpireCheck (sweepExec 70040) wDB =
      { lastExpireCheck := 70000, db := wDB, ran := false, loggedError := none } :=
  (lazyRelease_throttled 70000 70040 0 (sweepExec 70000) (sweepExec 70040) wDB
    (by decide) (by decide) (by decide)).2 wDB

/-! ## Payment Notification Verifier and Settlement Processor

The route handler app/api/payment/notify/route.ts and the settlement
action handlePaymentSuccess of lib/actions/orders.ts are not part of the
provided source tree; they are modelled from the specification (sections
4.2 and 4.3) and pinned by the shipped integration test
src/tests/integration/payment-notify.test.ts, which fixes the MD5
signature payload (non-empty, non-signature fields sorted by field name,
joined k=v with ampersands, secret appended), the check order, and the
response statuses and bodies.  The MD5 digest itself is an opaque
parameter of the model. -/

/-- Digit-string value, most significant first. -/
def digitsVal (l : List Char) : Nat :=
  l.foldl (fun acc c => acc * 10 + (c.toNat - 48)) 0

/-- Non-empty and all decimal digits. -/
def allDigits (l : List Char) : Bool :=
  !l.isEmpty && l.all Char.isDigit

/-- Modelled from the spec: exact decimal parsing of an amount string
(integer digits, optional fractional digits), returning the scaled
integer value and the scale.  Stands in for the decimal comparison the
missing route performs. -/
def parseDecimal (s : String) : Option (Nat × Nat) :=
  match s.data.splitOn '.' with
  | [i] => if allDigits i then some (digitsVal i, 0) else none
  | [i, f] =>
      if allDigits i && allDigits f then
        some (digitsVal i * 10 ^ f.length + digitsVal f, f.length)
      else none
  | _ => none

/-- Modelled from the spec: exact decimal equality of two amount strings
(not floating point): equal when the values agree after scaling to a
common exponent. -/
def decimalEq (a b : String) : Bool :=
  match parseDecimal a, parseDecimal b with
  | some x, some y => decide (x.1 * 10 ^ y.2 = y.1 * 10 ^ x.2)
  | _, _ => false

/-- The query parameters of the gateway callback. -/
structure NotifyQuery where
  pid : Option String
  trade_no : Option String
  out_trade_no : Option String
  type : Option String
  name : Option String
  money : Option String
  trade_status : Option String
  sign : Option String
  sign_type : Option String
deriving DecidableEq, Repr

/-- A parameter is present when it exists and is non-empty. -/
def presentB : Option String → Bool
  | some s => decide (s ≠ "")
  | none => false

/-- Required callback parameters, per the missing-parameter test. -/
def requiredPresent (q : NotifyQuery) : Bool :=
  presentB q.pid && presentB q.trade_no && presentB q.out_trade_no && presentB q.type &&
    presentB q.name && presentB q.money && presentB q.trade_status && presentB q.sign

/-- One key=value part of the signature payload; empty and absent values
are filtered out, per the integration test's computeNotifySign. -/
def fieldPart (k : String) (v : Option String) : List String :=
  match v with
  | some s => if s = "" then [] else [k ++ "=" ++ s]
  | none => []

/-- The signature payload: the non-signature fields sorted by field name
(money, name, out_trade_no, pid, trade_no, trade_status, type), joined
with ampersands. -/
def notifySignPayload (q : NotifyQuery) : String :=
  String.intercalate "&"
    (fieldPart "money" q.money ++ fieldPart "name" q.name ++
      fieldPart "out_trade_no" q.out_trade_no ++ fieldPart "pid" q.pid ++
      fieldPart "trade_no" q.trade_no ++ fieldPart "trade_status" q.trade_status ++
      fieldPart "type" q.type)

/-- The expected signature: digest of payload plus shared secret.  The
digest function is a parameter of the model. -/
def computeNotifySign (digest : String → String) (q : NotifyQuery) (secret : String) :
    String :=
  digest (notifySignPayload q ++ secret)

/-- The merchant configuration the route reads from the environment. -/
structure NotifyEnv where
  clientId : String
  clientSecret : String
deriving DecidableEq, Repr

/-- Settlement update of one order row: the matching order becomes
completed with paid_at, trade_no and updated_at set. -/
def settleOrder (oid tradeNo : String) (now : Nat) (x : Order) : Order :=
  if x.id = oid then
    { x with
      status := .completed
      paidAt := some now
      tradeNo := some tradeNo
      updatedAt := now }
  else x

/-- Settlement update of one card row: the order's locked cards become
sold. -/
def soldCard (oid : String) (c : Card) : Card :=
  if c.orderId = some oid ∧ c.status = .locked then { c with status := .sold } else c

/-- Settlement update of one product row: the sales counter of the
order's product is incremented. -/
def bumpSales (pid : Option String) (p : Product) : Product :=
  if some p.id = pid then { p with salesCount := p.salesCount + 1 } else p

/-- Modelled from the spec: handlePaymentSuccess of lib/actions/orders.ts
(absent from the source tree), the Settlement Processor of section 4.2:
look the order up by order number; a pending order settles (order
completed, cards sold, sales counter bumped) and reports success; an
already settled order is a successful no-op; any other status is a
rejected stale confirmation. -/
def handlePaymentSuccess (orderNo tradeNo : String) (now : Nat) (db : DB) : Bool × DB :=
  match db.orders.find? fun o => decide (o.orderNo = orderNo) with
  | none => (false, db)
  | some o =>
      match o.status with
      | .pending =>
          (true,
            { products := db.products.map (bumpSales o.productId)
              orders := db.orders.map (settleOrder o.id tradeNo now)
              cards := db.cards.map (soldCard o.id) })
      | .paid => (true, db)
      | .completed => (true, db)
      | _ => (false, db)

/-- The observable outcome of one notify request: HTTP status and body,
whether the order was looked up, whether the Settlement Processor was
invoked, and the state afterwards. -/
structure NotifyResult where
  status : Nat
  body : String
  lookedUpOrder : Bool
  settlementCalled : Bool
  db : DB
deriving DecidableEq, Repr

/-- Modelled from the spec: the GET handler of
app/api/payment/notify/route.ts (absent from the source tree), the
Payment Notification Verifier of section 4.3, with the branch order
pinned by the integration tests: required parameters, merchant id,
signature, order lookup, exact amount comparison, settled short-circuit,
trade-status gate, then the Settlement Processor. -/
def notifyGET (digest : String → String) (env : NotifyEnv) (q : NotifyQuery) (now : Nat)
    (db : DB) : NotifyResult :=
  if requiredPresent q then
    if q.pid = some env.clientId then
      if q.sign = some (computeNotifySign digest q env.clientSecret) then
        match db.orders.find? fun o => decide (o.orderNo = q.out_trade_no.getD "") with
        | none =>
            { status := 400, body := "fail", lookedUpOrder := true
              settlementCalled := false, db := db }
        | some order =>
            if decimalEq (q.money.getD "") order.totalAmount then
              if order.status = .paid ∨ order.status = .completed then
                { status := 200, body := "success", lookedUpOrder := true
                  settlementCalled := false, db := db }
              else if q.trade_status = some "TRADE_SUCCESS" then
                match handlePaymentSuccess (q.out_trade_no.getD "") (q.trade_no.getD "")
                    now db with
                | (true, db2) =>
                    { status := 200, body := "success", lookedUpOrder := true
                      settlementCalled := true, db := db2 }
                | (false, db2) =>
                    { status := 400, body := "fail", lookedUpOrder := true
                      settlementCalled := true, db := db2 }
              else
                { status := 200, body := "success", lookedUpOrder := true
                  settlementCalled := false, db := db }
            else
              { status := 400, body := "fail", lookedUpOrder := true
                settlementCalled := false, db := db }
      else
        { status := 400, body := "fail", lookedUpOrder := false
          settlementCalled := false, db := db }
    else
      { status := 400, body := "fail", lookedUpOrder := false
        settlementCalled := false, db := db }
  else
    { status := 400, body := "fail", lookedUpOrder := false
      settlementCalled := false, db := db }

/-- The state a pending order's settlement leaves behind. -/
def settledDB (o : Order) (tradeNo : String) (now : Nat) (db : DB) : DB :=
  { products := db.products.map (bumpSales o.productId)
    orders := db.orders.map (settleOrder o.id tradeNo now)
    cards := db.cards.map (soldCard o.id) }

theorem settleOrder_orderNo (oid tn : String) (now : Nat) (x : Order) :
    (settleOrder oid tn now x).orderNo = x.orderNo := by
  unfold settleOrder; split <;> rfl

theorem settleOrder_totalAmount (oid tn : String) (now : Nat) (x : Order) :
    (settleOrder oid tn now x).totalAmount = x.totalAmount := by
  unfold settleOrder; split <;> rfl

theorem settleOrder_self_status (tn : String) (now : Nat) (x : Order) :
    (settleOrder x.id tn now x).status = .completed := by
  unfold settleOrder; rw [if_pos rfl]

theorem find?_settled (l : List Order) (oid tn : String) (now : Nat) (s : String) :
    (l.map (settleOrder oid tn now)).find? (fun o => decide (o.orderNo = s))
      = Option.map (settleOrder oid tn now) (l.find? fun o => decide (o.orderNo = s)) := by
  have hp : ((fun o : Order => decide (o.orderNo = s)) ∘ settleOrder oid tn now)
      = fun o : Order => decide (o.orderNo = s) := by
    funext x
    simp [Function.comp, settleOrder_orderNo]
  rw [List.find?_map, hp]

theorem handle_pending (db : DB) (orderNo tn : String) (now : Nat) (o : Order)
    (hf : db.orders.find? (fun x => decide (x.orderNo = orderNo)) = some o)
    (hp : o.status = .pending) :
    handlePaymentSuccess orderNo tn now db = (true, settledDB o tn now db) := by
  simp [handlePaymentSuccess, settledDB, hf, hp]

theorem handle_settled (db : DB) (orderNo tn : String) (now : Nat) (o : Order)
    (hf : db.orders.find? (fun x => decide (x.orderNo = orderNo)) = some o)
    (hs : o.status = .paid ∨ o.status = .completed) :
    handlePaymentSuccess orderNo tn now db = (true, db) := by
  cases hs with
  | inl h => simp [handlePaymentSuccess, hf, h]
  | inr h => simp [handlePaymentSuccess, hf, h]

theorem handle_stale (db : DB) (orderNo tn : String) (now : Nat) (o : Order)
    (hf : db.orders.find? (fun x => decide (x.orderNo = orderNo)) = some o)
    (h1 : o.status ≠ .pending) (h2 : o.status ≠ .paid) (h3 : o.status ≠ .completed) :
    handlePaymentSuccess orderNo tn now db = (false, db) := by
  cases hst : o.status with
  | pending => exact absurd hst h1
  | paid => exact absurd hst h2
  | completed => exact absurd hst h3
  | expired => simp [handlePaymentSuccess, hf, hst]
  | refund_pending => simp [handlePaymentSuccess, hf, hst]
  | refunded => simp [handlePaymentSuccess, hf, hst]
  | refund_rejected => simp [handlePaymentSuccess, hf, hst]

theorem notify_missing (digest : String → String) (env : NotifyEnv) (q : NotifyQuery)
    (h : requiredPresent q = false) (now : Nat) (db : DB) :
    notifyGET digest env q now db =
      { status := 400, body := "fail", lookedUpOrder := false, settlementCalled := false
        db := db } := by
  simp [notifyGET, h]

theorem notify_badPid (digest : String → String) (env : NotifyEnv) (q : NotifyQuery)
    (h1 : requiredPresent q = true) (h2 : q.pid ≠ some env.clientId) (now : Nat) (db : DB) :
    notifyGET digest env q now db =
      { status := 400, body := "fail", lookedUpOrder := false, settlementCalled := false
        db := db } := by
  simp [notifyGET, h1, h2]

theorem notify_badSign (digest : String → String) (env : NotifyEnv) (q : NotifyQuery)
    (h1 : requiredPresent q = true) (h2 : q.pid = some env.clientId)
    (h3 : q.sign ≠ some (computeNotifySign digest q env.clientSecret)) (now : Nat) (db : DB) :
    notifyGET digest env q now db =
      { status := 400, body := "fail", lookedUpOrder := false, settlementCalled := false
        db := db } := by
  simp [notifyGET, h1, h2, h3]

theorem notify_noOrder (digest : String → String) (env : NotifyEnv) (q : NotifyQuery)
    (db : DB) (h1 : requiredPresent q = true) (h2 : q.pid = some env.clientId)
    (h3 : q.sign = some (computeNotifySign digest q env.clientSecret))
    (h4 : db.orders.find? (fun o => decide (o.orderNo = q.out_trade_no.getD "")) = none)
    (now : Nat) :
    notifyGET digest env q now db =
      { status := 400, body := "fail", lookedUpOrder := true, settlementCalled := false
        db := db } := by
  simp [notifyGET, h1, h2, h3, h4]

theorem notify_amountMismatch (digest : String → String) (env : NotifyEnv) (q : NotifyQuery)
    (db : DB) (o : Order) (h1 : requiredPresent q = true) (h2 : q.pid = some env.clientId)
    (h3 : q.sign = some (computeNotifySign digest q env.clientSecret))
    (h4 : db.orders.find? (fun x => decide (x.orderNo = q.out_trade_no.getD "")) = some o)
    (h5 : decimalEq (q.money.getD "") o.totalAmount = false) (now : Nat) :
    notifyGET digest env q now db =
      { status := 400, body := "fail", lookedUpOrder := true, settlementCalled := false
        db := db } := by
  simp [notifyGET, h1, h2, h3, h4, h5]

theorem notify_settled (digest : String → String) (env : NotifyEnv) (q : NotifyQuery)
    (db : DB) (o : Order) (h1 : requiredPresent q = true) (h2 : q.pid = some env.clientId)
    (h3 : q.sign = some (computeNotifySign digest q env.clientSecret))
    (h4 : db.orders.find? (fun x => decide (x.orderNo = q.out_trade_no.getD "")) = some o)
    (h5 : decimalEq (q.money.getD "") o.totalAmount = true)
    (h6 : o.status = .paid ∨ o.status = .completed) (now : Nat) :
    notifyGET digest env q now db =
      { status := 200, body := "success", lookedUpOrder := true, settlementCalled := false
        db := db } := by
  simp [notifyGET, h1, h2, h3, h4, h5, h6]

theorem notify_notSuccess (digest : String → String) (env : NotifyEnv) (q : NotifyQuery)
    (db : DB) (o : Order) (h1 : requiredPresent q = true) (h2 : q.pid = some env.clientId)
    (h3 : q.sign = some (computeNotifySign digest q env.clientSecret))
    (h4 : db.orders.find? (fun x => decide (x.orderNo = q.out_trade_no.getD "")) = some o)
    (h5 : decimalEq (q.money.getD "") o.totalAmount = true)
    (h6 : ¬ (o.status = .paid ∨ o.status = .completed))
    (h7 : q.trade_status ≠ some "TRADE_SUCCESS") (now : Nat) :
    notifyGET digest env q now db =
      { status := 200, body := "success", lookedUpOrder := true, settlementCalled := false
        db := db } := by
  simp [notifyGET, h1, h2, h3, h4, h5, h6, h7]

theorem notify_settle_ok (digest : String → String) (env : NotifyEnv) (q : NotifyQuery)
    (db db2 : DB) (o : Order) (now : Nat) (h1 : requiredPresent q = true)
    (h2 : q.pid = some env.clientId)
    (h3 : q.sign = some (computeNotifySign digest q env.clientSecret))
    (h4 : db.orders.find? (fun x => decide (x.orderNo = q.out_trade_no.getD "")) = some o)
    (h5 : decimalEq (q.money.getD "") o.totalAmount = true)
    (h6 : ¬ (o.status = .paid ∨ o.status = .completed))
    (h7 : q.trade_status = some "TRADE_SUCCESS")
    (h8 : handlePaymentSuccess (q.out_trade_no.getD "") (q.trade_no.getD "") now db =
      (true, db2)) :
    notifyGET digest env q now db =
      { status := 200, body := "success", lookedUpOrder := true, settlementCalled := true
        db := db2 } := by
  simp [notifyGET, h1, h2, h3, h4, h5, h6, h7, h8]

theorem notify_settle_fail (digest : String → String) (env : NotifyEnv) (q : NotifyQuery)
    (db db2 : DB) (o : Order) (now : Nat) (h1 : requiredPresent q = true)
    (h2 : q.pid = some env.clientId)
    (h3 : q.sign = some (computeNotifySign digest q env.clientSecret))
    (h4 : db.orders.find? (fun x => decide (x.orderNo = q.out_trade_no.getD "")) = some o)
    (h5 : decimalEq (q.money.getD "") o.totalAmount = true)
    (h6 : ¬ (o.status = .paid ∨ o.status = .completed))
    (h7 : q.trade_status = some "TRADE_SUCCESS")
    (h8 : handlePaymentSuccess (q.out_trade_no.getD "") (q.trade_no.getD "") now db =
      (false, db2)) :
    notifyGET digest env q now db =
      { status := 400, body := "fail", lookedUpOrder := true, settlementCalled := true
        db := db2 } := by
  simp [notifyGET, h1, h2, h3, h4, h5, h6, h7, h8]

theorem notify_after_settle (digest : String → String) (env : NotifyEnv) (q : NotifyQuery)
    (db : DB) (o : Order) (now : Nat) (h1 : requiredPresent q = true)
    (h2 : q.pid = some env.clientId)
    (h3 : q.sign = some (computeNotifySign digest q env.clientSecret))
    (h4 : db.orders.find? (fun x => decide (x.orderNo = q.out_trade_no.getD "")) = some o)
    (h5 : decimalEq (q.money.getD "") o.totalAmount = true) :
    notifyGET digest env q now (settledDB o (q.trade_no.getD "") now db) =
      { status := 200, body := "success", lookedUpOrder := true, settlementCalled := false
        db := settledDB o (q.trade_no.getD "") now db } := by
  have hf2 : (settledDB o (q.trade_no.getD "") now db).orders.find?
      (fun x => decide (x.orderNo = q.out_trade_no.getD ""))
      = some (settleOrder o.id (q.trade_no.getD "") now o) := by
    show (db.orders.map (settleOrder o.id (q.trade_no.getD "") now)).find? _ = _
    rw [find?_settled, h4]
    rfl
  have hamt : decimalEq (q.money.getD "")
      (settleOrder o.id (q.trade_no.getD "") now o).totalAmount = true := by
    rw [settleOrder_totalAmount]; exact h5
  have hset : (settleOrder o.id (q.trade_no.getD "") now o).status = .paid
      ∨ (settleOrder o.id (q.trade_no.getD "") now o).status = .completed :=
    Or.inr (settleOrder_self_status (q.trade_no.getD "") now o)
  exact notify_settled digest env q (settledDB o (q.trade_no.getD "") now db)
    (settleOrder o.id (q.trade_no.getD "") now o) h1 h2 h3 hf2 hamt hset now

theorem notify_idem (digest : String → String) (env : NotifyEnv) (q : NotifyQuery)
    (now : Nat) (db : DB) :
    (notifyGET digest env q now (notifyGET digest env q now db).db).db
      = (notifyGET digest env q now db).db := by
  cases h1 : requiredPresent q with
  | false => simp only [notify_missing digest env q h1]
  | true =>
      by_cases h2 : q.pid = some env.clientId
      · by_cases h3 : q.sign = some (computeNotifySign digest q env.clientSecret)
        · cases h4 : db.orders.find? fun x => decide (x.orderNo = q.out_trade_no.getD "") with
          | none => simp only [notify_noOrder digest env q db h1 h2 h3 h4]
          | some o =>
              cases h5 : decimalEq (q.money.getD "") o.totalAmount with
              | false => simp only [notify_amountMismatch digest env q db o h1 h2 h3 h4 h5]
              | true =>
                  by_cases h6 : o.status = .paid ∨ o.status = .completed
                  · simp only [notify_settled digest env q db o h1 h2 h3 h4 h5 h6]
                  · by_cases h7 : q.trade_status = some "TRADE_SUCCESS"
                    · by_cases hp : o.status = .pending
                      · have h8 := handle_pending db (q.out_trade_no.getD "")
                          (q.trade_no.getD "") now o h4 hp
                        rw [notify_settle_ok digest env q db
                          (settledDB o (q.trade_no.getD "") now db) o now h1 h2 h3 h4 h5 h6
                          h7 h8]
                        rw [notify_after_settle digest env q db o now h1 h2 h3 h4 h5]
                      · have h8 := handle_stale db (q.out_trade_no.getD "")
                          (q.trade_no.getD "") now o h4 hp
                          (fun hx => h6 (Or.inl hx)) (fun hx => h6 (Or.inr hx))
                        simp only [notify_settle_fail digest env q db db o now h1 h2 h3 h4
                          h5 h6 h7 h8]
                    · simp only [notify_notSuccess digest env q db o h1 h2 h3 h4 h5 h6 h7]
        · simp only [notify_badSign digest env q h1 h2 h3]
      · simp only [notify_badPid digest env q h1 h2]

/-- C2: a payment notification for an order already in a settled state
(paid or completed) is answered with HTTP 200 and body success without
invoking the Settlement Processor and without changing the state; and
delivering the same webhook twice leaves the same state as delivering it
once. -/
theorem notify_settled_short_circuit (digest : String → String) (env : NotifyEnv)
    (q : NotifyQuery) (now : Nat) (db : DB) (o : Order)
    (h1 : requiredPresent q = true) (h2 : q.pid = some env.clientId)
    (h3 : q.sign = some (computeNotifySign digest q env.clientSecret))
    (h4 : db.orders.find? (fun x => decide (x.orderNo = q.out_trade_no.getD "")) = some o)
    (h5 : decimalEq (q.money.getD "") o.totalAmount = true)
    (h6 : o.status = .paid ∨ o.status = .completed) :
    notifyGET digest env q now db =
      { status := 200, body := "success", lookedUpOrder := true, settlementCalled := false
        db := db }
    ∧ (notifyGET digest env q now (notifyGET digest env q now db).db).db
        = (notifyGET digest env q now db).db :=
  ⟨notify_settled digest env q db o h1 h2 h3 h4 h5 h6 now,
    notify_idem digest env q now db⟩

/-- C3: a payment notification whose confirmed amount differs from the
order's stored total amount under exact decimal comparison is rejected
with HTTP 400 and body fail, the Settlement Processor is not invoked, and
the state (hence the pending order) is unchanged. -/
theorem notify_amount_mismatch_rejected (digest : String → String) (env : NotifyEnv)
    (q : NotifyQuery) (now : Nat) (db : DB) (o : Order)
    (h1 : requiredPresent q = true) (h2 : q.pid = some env.clientId)
    (h3 : q.sign = some (computeNotifySign digest q env.clientSecret))
    (h4 : db.orders.find? (fun x => decide (x.orderNo = q.out_trade_no.getD "")) = some o)
    (h5 : decimalEq (q.money.getD "") o.totalAmount = false)
    (hpend : o.status = .pending) :
    notifyGET digest env q now db =
      { status := 400, body := "fail", lookedUpOrder := true, settlementCalled := false
        db := db }
    ∧ ((notifyGET digest env q now db).db.orders.find?
        (fun x => decide (x.orderNo = q.out_trade_no.getD ""))).map Order.status
        = some .pending := by
  have he := notify_amountMismatch digest env q db o h1 h2 h3 h4 h5 now
  refine ⟨he, ?_⟩
  rw [he]
  show (db.orders.find? _).map Order.status = _
  rw [h4, Option.map_some', hpend]

/-- C4: a payment notification that fails verification (missing required
parameters, merchant-id mismatch, or signature mismatch against the
digest recomputed over the non-signature fields sorted by field name) is
rejected at the boundary: HTTP 400, body fail, no order lookup, no
settlement transaction, state untouched. -/
theorem notify_verification_rejected_at_boundary (digest : String → String)
    (env : NotifyEnv) (q : NotifyQuery) (now : Nat) (db : DB)
    (h : requiredPresent q = false ∨ q.pid ≠ some env.clientId
      ∨ q.sign ≠ some (computeNotifySign digest q env.clientSecret)) :
    notifyGET digest env q now db =
      { status := 400, body := "fail", lookedUpOrder := false, settlementCalled := false
        db := db } := by
  cases hreq : requiredPresent q with
  | false => exact notify_missing digest env q hreq now db
  | true =>
      by_cases h2 : q.pid = some env.clientId
      · by_cases h3 : q.sign = some (computeNotifySign digest q env.clientSecret)
        · rcases h with h | h | h
          · rw [hreq] at h; exact Bool.noConfusion h
          · exact absurd h2 h
          · exact absurd h3 h
        · exact notify_badSign digest env q hreq h2 h3 now db
      · exact notify_badPid digest env q hreq h2 now db

def wEnv : NotifyEnv := { clientId := "1001", clientSecret := "secret" }

/-- A concrete digest function for the witnesses (the model treats the
digest as a parameter). -/
def wDigest : String → String := fun _ => "SIG"

def wNotifyQuery : NotifyQuery :=
  { pid := some "1001", trade_no := some "TRADE_1", out_trade_no := some "ORDER_1"
    type := some "epay", name := some "Test", money := some "10.00"
    trade_status := some "TRADE_SUCCESS", sign := some "SIG", sign_type := some "MD5" }

def wNotifyQueryBadAmount : NotifyQuery := { wNotifyQuery with money := some "10.01" }

def wNotifyQueryNoSign : NotifyQuery := { wNotifyQuery with sign := none }

def wOrderCompleted : Order :=
  { wOrder1 with status := .completed, tradeNo := some "TRADE_1", paidAt := some 60 }

def wDBCompleted : DB :=
  { products := [wProduct1], orders := [wOrderCompleted]
    cards := [{ wCard1 with status := .sold }] }

theorem notify_settled_short_circuit_witness :
    notifyGET wDigest wEnv wNotifyQuery 90 wDBCompleted =
      { status := 200, body := "success", lookedUpOrder := true, settlementCalled := false
        db := wDBCompleted } :=
  (notify_settled_short_circuit wDigest wEnv wNotifyQuery 90 wDBCompleted wOrderCompleted
    (by decide) (by decide) (by decide) (by decide) (by decide) (by decide)).1

theorem notify_amount_mismatch_rejected_witness :
    notifyGET wDigest wEnv wNotifyQueryBadAmount 90 wDB =
      { status := 400, body := "fail", lookedUpOrder := true, settlementCalled := false
        db := wDB } :=
  (notify_amount_mismatch_rejected wDigest wEnv wNotifyQueryBadAmount 90 wDB wOrder1
    (by decide) (by decide) (by decide) (by decide) (by decide) (by decide)).1

theorem notify_verification_rejected_at_boundary_witness :
    notifyGET wDigest wEnv wNotifyQueryNoSign 90 wDB =
      { status := 400, body := "fail", lookedUpOrder := false, settlementCalled := false
        db := wDB } :=
  notify_verification_rejected_at_boundary wDigest wEnv wNotifyQueryNoSign 90 wDB
    (Or.inl (by decide))

/-! ## Compensation Query (queryPaymentOrder of lib/payment/ldc.ts)

The client is absent from the source tree; it is modelled from the
specification (section 4.4) and pinned by the shipped unit test
src/unnamed/part_007: a definitive not-found reply (gateway code -1, or
HTTP 404) yields null; a success reply (code 1) yields the order info;
non-JSON bodies, bot-challenge pages and other codes raise errors. -/

/-- The arguments of queryPaymentOrder: at least one identifier must be
given. -/
structure QueryPaymentParams where
  outTradeNo : Option String
  tradeNo : Option String
deriving DecidableEq, Repr

/-- The JSON body the gateway returns for an order-status query. -/
structure GatewayOrderInfo where
  code : Int
  msg : String
  trade_no : String
  out_trade_no : String
  money : String
  status : Int
deriving DecidableEq, Repr

/-- The observable HTTP reply of the gateway: status, the parsed JSON
body when the body is JSON, and whether a non-JSON body looks like a
Cloudflare challenge page. -/
structure GatewayReply where
  httpStatus : Nat
  json : Option GatewayOrderInfo
  looksCloudflare : Bool
deriving DecidableEq, Repr

/-- Modelled from the spec: queryPaymentOrder of lib/payment/ldc.ts
(absent from the source tree).  Missing identifiers raise; a definitive
not-found reply (HTTP 404 or gateway code -1) maps to a null result;
code 1 returns the order; anything else (bot challenge, malformed body,
other codes) raises an error for the caller to treat as transient. -/
def queryPaymentOrder (p : QueryPaymentParams) (reply : GatewayReply) :
    Except String (Option GatewayOrderInfo) :=
  if p.outTradeNo = none ∧ p.tradeNo = none then
    .error "missing outTradeNo and tradeNo"
  else if reply.httpStatus = 404 then .ok none
  else
    match reply.json with
    | none =>
        if reply.looksCloudflare then .error "Cloudflare challenge"
        else .error "gateway returned a malformed payload"
    | some j =>
        if j.code = 1 then .ok (some j)
        else if j.code = -1 then .ok none
        else .error j.msg

/-- Modelled from the spec: the compensation path of getOrderByNo (absent
from the source tree): only a definitive success reply (status 1) replays
the Settlement Processor; a null or failed query leaves the order
untouched for a future attempt. -/
def compensatePendingOrder (orderNo : String) (now : Nat) (db : DB)
    (qres : Except String (Option GatewayOrderInfo)) : DB :=
  match qres with
  | .ok (some j) =>
      if j.status = 1 then (handlePaymentSuccess orderNo j.trade_no now db).2 else db
  | .ok none => db
  | .error _ => db

/-- C9: a definitive not-found or already-consumed gateway reply (code
-1, or HTTP 404) makes queryPaymentOrder return null, an inconclusive
result, and the compensation path leaves the state unchanged, so no order
is moved to expired, failed or any cancelled state on that basis. -/
theorem queryPaymentOrder_not_found_inconclusive (p : QueryPaymentParams)
    (reply : GatewayReply) (orderNo : String) (now : Nat) (db : DB)
    (hid : ¬ (p.outTradeNo = none ∧ p.tradeNo = none))
    (hdef : reply.httpStatus = 404 ∨ ∃ j, reply.json = some j ∧ j.code = -1) :
    queryPaymentOrder p reply = .ok none
    ∧ compensatePendingOrder orderNo now db (queryPaymentOrder p reply) = db
    ∧ (compensatePendingOrder orderNo now db (queryPaymentOrder p reply)).orders
        = db.orders := by
  have hq : queryPaymentOrder p reply = .ok none := by
    rcases hdef with h404 | ⟨j, hj, hcode⟩
    · simp [queryPaymentOrder, hid, h404]
    · by_cases h404 : reply.httpStatus = 404
      · simp [queryPaymentOrder, hid, h404]
      · have : ¬ (j.code = 1) := by rw [hcode]; decide
        simp [queryPaymentOrder, hid, h404, hj, this, hcode]
  refine ⟨hq, ?_, ?_⟩ <;> rw [hq] <;> rfl

def wGoneInfo : GatewayOrderInfo :=
  { code := -1, msg := "order missing or already consumed", trade_no := ""
    out_trade_no := "ORDER_1", money := "", status := 0 }

def wGatewayReplyGone : GatewayReply :=
  { httpStatus := 200, json := some wGoneInfo, looksCloudflare := false }

theorem queryPaymentOrder_not_found_inconclusive_witness :
    queryPaymentOrder { outTradeNo := some "ORDER_1", tradeNo := none } wGatewayReplyGone
      = .ok none
    ∧ compensatePendingOrder "ORDER_1" 90 wDB
        (queryPaymentOrder { outTradeNo := some "ORDER_1", tradeNo := none }
          wGatewayReplyGone) = wDB := by
  have h := queryPaymentOrder_not_found_inconclusive
    { outTradeNo := some "ORDER_1", tradeNo := none } wGatewayReplyGone "ORDER_1" 90 wDB
    (by decide)
    (Or.inr ⟨wGoneInfo, by decide, by decide⟩)
  exact ⟨h.1, h.2.1⟩

/-! ## Restock requests (requestRestock, src/lib/actions/restock-requests.ts)

requestRestock authenticates a Linux DO user, trims the product id, and
upserts a registration row keyed on (product_id, user_id) with ON
CONFLICT updating only user_image; the xmax of the returned row tells
first insert from repeat, and only a first insert fires the Telegram
notification.  The state carries the rows and a notification counter. -/

/-- The session user the action reads from auth(). -/
structure SessionUser where
  id : Option String
  username : Option String
  name : Option String
  image : Option String
  provider : Option String
deriving DecidableEq, Repr

/-- A row of the restock_requests table. -/
structure RestockRow where
  productId : String
  userId : String
  username : String
  userImage : Option String
deriving DecidableEq, Repr

/-- The restock_requests table plus the count of Telegram notifications
that have been triggered. -/
structure RestockState where
  rows : List RestockRow
  notificationsSent : Nat
deriving DecidableEq, Repr

/-- The action's result value. -/
structure RequestRestockResult where
  success : Bool
  message : String
deriving DecidableEq, Repr

/-- JavaScript string or-else: an empty string falls through. -/
def jsOr (a : Option String) (b : String) : String :=
  match a with
  | some s => if s = "" then b else s
  | none => b

/-- The display name: (user.username or user.name or the default),
trimmed, falling back to the default when blank. -/
def restockUsername (u : SessionUser) : String :=
  if jsTrim (jsOr u.username (jsOr u.name "用户")) = "" then "用户"
  else jsTrim (jsOr u.username (jsOr u.name "用户"))

/-- Number of registration rows for one (product, user) key. -/
def restockCountFor (rows : List RestockRow) (pid uid : String) : Nat :=
  (rows.filter fun r => decide (r.productId = pid ∧ r.userId = uid)).length

/-- requestRestock: Linux DO auth gate, trimmed product id, ON CONFLICT
upsert keyed on (product_id, user_id) updating only user_image, Telegram
notification only when the row is freshly inserted. -/
def requestRestock (session : Option SessionUser) (productId : String)
    (st : RestockState) : RequestRestockResult × RestockState :=
  match session with
  | none => ({ success := false, message := "请先使用 Linux DO 登录后再催补货" }, st)
  | some user =>
      match user.id with
      | none => ({ success := false, message := "请先使用 Linux DO 登录后再催补货" }, st)
      | some uid =>
          if uid = "" ∨ user.provider ≠ some "linux-do" then
            ({ success := false, message := "请先使用 Linux DO 登录后再催补货" }, st)
          else if (jsTrim productId) = "" then
            ({ success := false, message := "商品信息无效" }, st)
          else if restockCountFor st.rows (jsTrim productId) uid = 0 then
            ({ success := true, message := "已为你登记催补货" },
              { rows := st.rows ++
                  [{ productId := (jsTrim productId), userId := uid
                     username := restockUsername user, userImage := user.image }]
                notificationsSent := st.notificationsSent + 1 })
          else
            ({ success := true, message := "已为你登记催补货" },
              { rows := st.rows.map fun r =>
                  if r.productId = (jsTrim productId) ∧ r.userId = uid then
                    { r with userImage := user.image }
                  else r
                notificationsSent := st.notificationsSent })

/-- n calls of requestRestock in sequence. -/
def requestRestockIter (session : Option SessionUser) (productId : String) :
    Nat → RestockState → RestockState
  | 0, st => st
  | n + 1, st => requestRestockIter session productId n (requestRestock session productId st).2

theorem requestRestock_success (user : SessionUser) (uid productId : String)
    (huid : user.id = some uid) (hne : uid ≠ "")
    (hprov : user.provider = some "linux-do") (hpid : (jsTrim productId) ≠ "")
    (st : RestockState) :
    (requestRestock (some user) productId st).1 =
      { success := true, message := "已为你登记催补货" } := by
  by_cases hc : restockCountFor st.rows (jsTrim productId) uid = 0 <;>
    simp [requestRestock, huid, hne, hprov, hpid, hc]

theorem requestRestock_insert (user : SessionUser) (uid productId : String)
    (huid : user.id = some uid) (hne : uid ≠ "")
    (hprov : user.provider = some "linux-do") (hpid : (jsTrim productId) ≠ "")
    (st : RestockState) (hc : restockCountFor st.rows (jsTrim productId) uid = 0) :
    (requestRestock (some user) productId st).2 =
      { rows := st.rows ++
          [{ productId := (jsTrim productId), userId := uid
             username := restockUsername user, userImage := user.image }]
        notificationsSent := st.notificationsSent + 1 } := by
  simp [requestRestock, huid, hne, hprov, hpid, hc]

theorem requestRestock_update (user : SessionUser) (uid productId : String)
    (huid : user.id = some uid) (hne : uid ≠ "")
    (hprov : user.provider = some "linux-do") (hpid : (jsTrim productId) ≠ "")
    (st : RestockState) (hc : ¬ restockCountFor st.rows (jsTrim productId) uid = 0) :
    (requestRestock (some user) productId st).2 =
      { rows := st.rows.map fun r =>
          if r.productId = (jsTrim productId) ∧ r.userId = uid then
            { r with userImage := user.image }
          else r
        notificationsSent := st.notificationsSent } := by
  simp [requestRestock, huid, hne, hprov, hpid, hc]

theorem restockCountFor_append_self (rows : List RestockRow) (pid uid username : String)
    (img : Option String) :
    restockCountFor
        (rows ++ [{ productId := pid
                    userId := uid
                    username := username
                    userImage := img }]) pid uid
      = restockCountFor rows pid uid + 1 := by
  unfold restockCountFor
  rw [List.filter_append]
  simp

theorem length_filter_map_eq {α β : Type} (f : α → β) (p : β → Bool) (q : α → Bool)
    (h : ∀ a, p (f a) = q a) (l : List α) :
    ((l.map f).filter p).length = (l.filter q).length := by
  induction l with
  | nil => rfl
  | cons a t ih =>
      rw [List.map_cons, List.filter_cons, List.filter_cons, h a]
      cases hq : q a
      · simpa using ih
      · simpa using ih

theorem restockCountFor_update (rows : List RestockRow) (pid uid : String)
    (img : Option String) :
    restockCountFor
        (rows.map fun r =>
          if r.productId = pid ∧ r.userId = uid then { r with userImage := img } else r)
        pid uid
      = restockCountFor rows pid uid := by
  unfold restockCountFor
  refine length_filter_map_eq _ _ _ ?_ rows
  intro r
  by_cases hr : (r.productId = pid ∧ r.userId = uid)
  · rw [if_pos hr]
  · rw [if_neg hr]

theorem requestRestockIter_keeps (user : SessionUser) (uid productId : String)
    (huid : user.id = some uid) (hne : uid ≠ "")
    (hprov : user.provider = some "linux-do") (hpid : (jsTrim productId) ≠ "") :
    ∀ (n : Nat) (st : RestockState),
      restockCountFor st.rows (jsTrim productId) uid = 1 →
      restockCountFor (requestRestockIter (some user) productId n st).rows
          (jsTrim productId) uid = 1
      ∧ (requestRestockIter (some user) productId n st).notificationsSent
          = st.notificationsSent := by
  intro n
  induction n with
  | zero => intro st h; exact ⟨h, rfl⟩
  | succ k ih =>
      intro st h
      have hupd := requestRestock_update user uid productId huid hne hprov hpid st
        (by rw [h]; decide)
      have hstep : requestRestockIter (some user) productId (k + 1) st
          = requestRestockIter (some user) productId k
              (requestRestock (some user) productId st).2 := rfl
      rw [hstep, hupd]
      have hcount : restockCountFor
          (st.rows.map fun r =>
            if r.productId = (jsTrim productId) ∧ r.userId = uid then
              { r with userImage := user.image }
            else r)
          (jsTrim productId) uid = 1 := by
        rw [restockCountFor_update]; exact h
      obtain ⟨ha, hb⟩ := ih
        { rows := st.rows.map fun r =>
            if r.productId = (jsTrim productId) ∧ r.userId = uid then
              { r with userImage := user.image }
            else r
          notificationsSent := st.notificationsSent } hcount
      exact ⟨ha, hb⟩

/-- C10: requestRestock is idempotent per (product, user): for an
authenticated Linux DO user and a valid product id, every invocation
returns success, any number of repeated invocations leaves exactly one
registration row for the (product, user) key, and the Telegram
notification fires only on the first insertion, never on repeats. -/
theorem requestRestock_idempotent (user : SessionUser) (uid productId : String)
    (st : RestockState)
    (huid : user.id = some uid) (hne : uid ≠ "")
    (hprov : user.provider = some "linux-do") (hpid : (jsTrim productId) ≠ "")
    (h0 : restockCountFor st.rows (jsTrim productId) uid = 0) :
    (∀ st2 : RestockState, (requestRestock (some user) productId st2).1 =
        { success := true, message := "已为你登记催补货" })
    ∧ (∀ n : Nat,
        restockCountFor (requestRestockIter (some user) productId (n + 1) st).rows
            (jsTrim productId) uid = 1
        ∧ (requestRestockIter (some user) productId (n + 1) st).notificationsSent
            = st.notificationsSent + 1) := by
  refine ⟨fun st2 => requestRestock_success user uid productId huid hne hprov hpid st2,
    fun n => ?_⟩
  have hstep : requestRestockIter (some user) productId (n + 1) st
      = requestRestockIter (some user) productId n
          (requestRestock (some user) productId st).2 := rfl
  rw [hstep, requestRestock_insert user uid productId huid hne hprov hpid st h0]
  have hcount : restockCountFor
      (st.rows ++
        [{ productId := (jsTrim productId), userId := uid
           username := restockUsername user, userImage := user.image }])
      (jsTrim productId) uid = 1 := by
    rw [restockCountFor_append_self, h0]
  obtain ⟨ha, hb⟩ := requestRestockIter_keeps user uid productId huid hne hprov hpid n
    { rows := st.rows ++
        [{ productId := (jsTrim productId), userId := uid
           username := restockUsername user, userImage := user.image }]
      notificationsSent := st.notificationsSent + 1 } hcount
  exact ⟨ha, hb⟩

def wUser : SessionUser :=
  { id := some "u1", username := some "alice", name := none, image := some "avatar"
    provider := some "linux-do" }

def wRestockState : RestockState := { rows := [], notificationsSent := 0 }

theorem requestRestock_idempotent_witness :
    ((requestRestock (some wUser) "p1" wRestockState).1 =
      { success := true, message := "已为你登记催补货" })
    ∧ restockCountFor (requestRestockIter (some wUser) "p1" 3 wRestockState).rows
        (jsTrim "p1") "u1" = 1
    ∧ (requestRestockIter (some wUser) "p1" 3 wRestockState).notificationsSent = 1 := by
  have h := requestRestock_idempotent wUser "u1" "p1" wRestockState (by decide) (by decide)
    (by decide) (by decide) (by decide)
  exact ⟨h.1 wRestockState, (h.2 2).1, by rw [(h.2 2).2]; rfl⟩

end LdcStore
